import Mathlib

/-!
# Verification of the fabrictestbed resource topology index and query layer

Shallow embedding of the Python sources
`fabrictestbed/util/site_v2.py`, `fabrictestbed/util/resources_v2.py` and
`fabrictestbed/topology_query_api.py`.

Modelling conventions, used uniformly below:
* a Python `dict` is an insertion-ordered association list `List (String × V)`;
  `d[k] = v` is `dput` (replace in place when the key exists, append otherwise),
  `d.get(k)` is `dget`;
* a Python attribute that may be absent (read through `getattr` with a default)
  is an `Option` field, `none` meaning the attribute is missing;
* Python `int` is `Int`; latitude/longitude floats are modelled as `Int`
  coordinates (no claim touches their arithmetic);
* an attribute access that may raise is a `Fallible` field; a code path that
  raises an uncaught exception is an `Except.error` carrying the message.
-/

set_option autoImplicit false

namespace Fabric

/-! ## Python dict as an insertion-ordered association list -/

def dget {V : Type} : List (String × V) → String → Option V
  | [], _ => none
  | (k', v) :: rest, k => if k' = k then some v else dget rest k

def dput {V : Type} (k : String) (v : V) : List (String × V) → List (String × V)
  | [] => [(k, v)]
  | (k', v') :: rest => if k' = k then (k, v) :: rest else (k', v') :: dput k v rest

/-- Update the value stored at `k` in place; no-op when `k` is absent
(the sources only use this where the key is known to be present). -/
def dupdate {V : Type} (k : String) (f : V → V) : List (String × V) → List (String × V)
  | [] => []
  | (k', v') :: rest => if k' = k then (k', f v') :: rest else (k', v') :: dupdate k f rest

def dkeys {V : Type} (d : List (String × V)) : List String := d.map (·.1)

/-! ## Python truthiness helpers -/

/-- ASCII lowercase of one character (Python `str.lower()`; every string the
sources lowercase and compare is ASCII). -/
def charLower (c : Char) : Char :=
  if 65 ≤ c.toNat ∧ c.toNat ≤ 90 then Char.ofNat (c.toNat + 32) else c

/-- ASCII `str.lower()`, written structurally over the character list. -/
def strLower (s : String) : String :=
  String.mk (s.data.map charLower)

instance {ε α : Type} [DecidableEq ε] [DecidableEq α] : DecidableEq (Except ε α) := fun x y =>
  match x, y with
  | .ok a, .ok b =>
    if h : a = b then .isTrue (by rw [h]) else .isFalse (by intro hc; cases hc; exact h rfl)
  | .error a, .error b =>
    if h : a = b then .isTrue (by rw [h]) else .isFalse (by intro hc; cases hc; exact h rfl)
  | .ok _, .error _ => .isFalse (by intro hc; cases hc)
  | .error _, .ok _ => .isFalse (by intro hc; cases hc)

/-- Python `a or b` on optional strings: `None` and `""` are falsy. -/
def pyOrStr (a b : Option String) : Option String :=
  match a with
  | some s => if s = "" then b else some s
  | none => b

/-- An attribute whose access may raise an exception. -/
inductive Fallible (α : Type) where
  | ok (val : α)
  | raises
  deriving DecidableEq

/-! ## Record types (fabrictestbed/util/site_v2.py, lines 23-128)

The frozen dataclasses become structures.  Default field values mirror the
dataclass defaults; `LinkInfo` and `LinkEndpoint` have none, exactly as in the
source. -/

structure SwitchInfo where
  model : String
  capacity : Option Int := some 0
  allocated : Option Int := some 0
  deriving DecidableEq

structure ComponentInfo where
  model : String
  capacity : Option Int := some 0
  allocated : Option Int := some 0
  deriving DecidableEq

structure HostInfo where
  name : String
  site : String
  cores_capacity : Option Int := some 0
  cores_allocated : Option Int := some 0
  ram_capacity : Option Int := some 0
  ram_allocated : Option Int := some 0
  disk_capacity : Option Int := some 0
  disk_allocated : Option Int := some 0
  components : List (String × ComponentInfo) := []
  deriving DecidableEq

/-- `0 if capacity is None or allocated is None else max(0, capacity - allocated)`
(the `*_available` expressions of `HostInfo.to_dict`, site_v2.py lines 55-70). -/
def availOf (cap alloc : Option Int) : Int :=
  match cap, alloc with
  | some c, some a => max 0 (c - a)
  | _, _ => 0

/-- The mapping returned by `HostInfo.to_dict` (site_v2.py lines 49-75),
modelled as a typed record. -/
structure HostDict where
  name : String
  site : String
  cores_capacity : Option Int
  cores_allocated : Option Int
  cores_available : Int
  ram_capacity : Option Int
  ram_allocated : Option Int
  ram_available : Int
  disk_capacity : Option Int
  disk_allocated : Option Int
  disk_available : Int
  components : List (String × (Option Int × Option Int))
  deriving DecidableEq

def HostInfo.to_dict (h : HostInfo) : HostDict :=
  { name := h.name
    site := h.site
    cores_capacity := h.cores_capacity
    cores_allocated := h.cores_allocated
    cores_available := availOf h.cores_capacity h.cores_allocated
    ram_capacity := h.ram_capacity
    ram_allocated := h.ram_allocated
    ram_available := availOf h.ram_capacity h.ram_allocated
    disk_capacity := h.disk_capacity
    disk_allocated := h.disk_allocated
    disk_available := availOf h.disk_capacity h.disk_allocated
    components := h.components.map (fun e => (e.1, (e.2.capacity, e.2.allocated))) }

structure FacilityPortInfo where
  site : String
  name : String
  port : Option String := none
  switch : Option String := none
  labels : Option String := none
  vlans : Option String := none
  allocated_vlans : Option String := none
  deriving DecidableEq

structure LinkEndpoint where
  site : Option String
  node : Option String
  port : Option String
  deriving DecidableEq

/-- Frozen dataclass with seven fields and no defaults (site_v2.py lines 108-116):
every constructor call must supply all seven. -/
structure LinkInfo where
  name : Option String
  layer : Option String
  labels : Option String
  bandwidth : Option Int
  allocated_bandwidth : Option Int
  sites : Option (List String)
  endpoints : List LinkEndpoint
  deriving DecidableEq

/-! ## SiteV2 (site_v2.py lines 134-224) -/

structure SiteV2 where
  name : String
  address : Option String := none
  location : Option (Int × Int) := none
  state : Option String := none
  ptp_capable : Option Bool := none
  ipv4_management : Option Bool := none
  hosts_index : List (String × HostInfo) := []
  facility_ports_index : List (String × FacilityPortInfo) := []
  links_index : List (String × List LinkInfo) := []
  switches_index : List (String × SwitchInfo) := []
  deriving DecidableEq

def SiteV2.get_hosts (s : SiteV2) : List HostInfo := s.hosts_index.map (·.2)

/-- `sum(h.cores_capacity or 0 ...), sum(h.cores_allocated or 0 ...)`. -/
def SiteV2.aggregate_cores (s : SiteV2) : Int × Int :=
  ((s.hosts_index.map (fun e => e.2.cores_capacity.getD 0)).sum,
   (s.hosts_index.map (fun e => e.2.cores_allocated.getD 0)).sum)

def SiteV2.aggregate_ram (s : SiteV2) : Int × Int :=
  ((s.hosts_index.map (fun e => e.2.ram_capacity.getD 0)).sum,
   (s.hosts_index.map (fun e => e.2.ram_allocated.getD 0)).sum)

def SiteV2.aggregate_disk (s : SiteV2) : Int × Int :=
  ((s.hosts_index.map (fun e => e.2.disk_capacity.getD 0)).sum,
   (s.hosts_index.map (fun e => e.2.disk_allocated.getD 0)).sum)

/-- One `{"capacity": _, "allocated": _, "available": _}` aggregate entry. -/
structure CompAgg where
  capacity : Int
  allocated : Int
  available : Int
  deriving DecidableEq

/-- `SiteV2.aggregate_components` (site_v2.py lines 177-193): a first pass sums
capacity/allocated per model across all hosts (`setdefault` + in-place `+=`),
a second pass adds `available = max(0, cap - alloc)`. -/
def SiteV2.aggregate_components (s : SiteV2) : List (String × CompAgg) :=
  let agg : List (String × (Int × Int)) :=
    s.hosts_index.foldl (fun acc he =>
      he.2.components.foldl (fun acc ce =>
        let entry := (dget acc ce.1).getD (0, 0)
        dput ce.1 (entry.1 + ce.2.capacity.getD 0, entry.2 + ce.2.allocated.getD 0) acc)
        acc) []
  agg.map (fun e => (e.1, ⟨e.2.1, e.2.2, max 0 (e.2.1 - e.2.2)⟩))

/-- The mapping returned by `SiteV2.to_summary` (site_v2.py lines 195-224). -/
structure SiteSummary where
  name : String
  state : Option String
  address : Option String
  location : Option (Int × Int)
  ptp_capable : Option Bool
  ipv4_management : Option Bool
  cores_capacity : Int
  cores_allocated : Int
  cores_available : Int
  ram_capacity : Int
  ram_allocated : Int
  ram_available : Int
  disk_capacity : Int
  disk_allocated : Int
  disk_available : Int
  components : List (String × CompAgg)
  hosts_count : Nat
  deriving DecidableEq

def SiteV2.to_summary (s : SiteV2) : SiteSummary :=
  let cores := s.aggregate_cores
  let ram := s.aggregate_ram
  let disk := s.aggregate_disk
  { name := s.name
    state := s.state
    address := s.address
    location := s.location
    ptp_capable := s.ptp_capable
    ipv4_management := s.ipv4_management
    cores_capacity := cores.1
    cores_allocated := cores.2
    cores_available := max 0 (cores.1 - cores.2)
    ram_capacity := ram.1
    ram_allocated := ram.2
    ram_available := max 0 (ram.1 - ram.2)
    disk_capacity := disk.1
    disk_allocated := disk.2
    disk_available := max 0 (disk.1 - disk.2)
    components := s.aggregate_components
    hosts_count := s.hosts_index.length }

/-! ## Raw FIM node model for the site loader (site_v2.py lines 230-288)

`load_site` receives a FIM `CompositeNode`.  Attribute bags are modelled per
the conventions in the header.  The accesses that the degraded-site scenario
exercises — `site.children` and `child.type` — are `Fallible`. -/

/-- Attribute bag for a FIM `Capacities` / `CapacityAllocations` object. -/
structure RawCaps where
  core : Option Int := none
  ram : Option Int := none
  disk : Option Int := none
  unit : Option Int := none
  deriving DecidableEq

inductive RawNodeType where
  | server
  | switch
  | other
  deriving DecidableEq

structure RawComponent where
  model : String
  capacities : Option RawCaps := none
  capacity_allocations : Option RawCaps := none
  deriving DecidableEq

structure RawChild where
  type : Fallible RawNodeType
  components : List (String × RawComponent) := []
  capacities : Option RawCaps := none
  capacity_allocations : Option RawCaps := none
  deriving DecidableEq

structure RawLocation where
  lat : Int
  lon : Int
  postal : Option String := none
  deriving DecidableEq

structure RawFlags where
  ptp : Option Bool := none
  ipv4_management : Option Bool := none
  deriving DecidableEq

structure RawSite where
  site : String
  children : Fallible (List (String × RawChild))
  location : Option RawLocation := none
  flags : Option RawFlags := none
  deriving DecidableEq

/-- `getattr(getattr(comp, "capacities", None), "unit", 0)`:
`None` capacities give the default `0`; otherwise the `unit` attribute
(an int in FIM, `0` when absent). -/
def compCap (c : RawComponent) : Int :=
  match c.capacities with
  | none => 0
  | some cs => cs.unit.getD 0

def compAlloc (c : RawComponent) : Int :=
  match c.capacity_allocations with
  | none => 0
  | some cs => cs.unit.getD 0

/-- `getattr(caps, field, 0)` where `caps` itself may be `None`. -/
def capField (caps : Option RawCaps) (f : RawCaps → Option Int) : Int :=
  match caps with
  | none => 0
  | some c => (f c).getD 0

/-- One step of the component loop of `load_host` (site_v2.py lines 263-274):
merge a same-named component by summing, insert a fresh one otherwise. -/
def insertComp (acc : List (String × ComponentInfo)) (e : String × RawComponent) :
    List (String × ComponentInfo) :=
  let cap := compCap e.2
  let alloc := compAlloc e.2
  match dget acc e.1 with
  | some existing =>
      dput e.1
        { model := existing.model
          capacity := some (existing.capacity.getD 0 + cap)
          allocated := some (existing.allocated.getD 0 + alloc) } acc
  | none =>
      dput e.1 { model := e.2.model, capacity := some cap, allocated := some alloc } acc

/-- `load_host` (site_v2.py lines 261-288). -/
def load_host (site_name host_name : String) (host : RawChild) : HostInfo :=
  let components := host.components.foldl insertComp []
  { name := host_name
    site := site_name
    components := components
    cores_capacity := some (capField host.capacities (·.core))
    ram_capacity := some (capField host.capacities (·.ram))
    disk_capacity := some (capField host.capacities (·.disk))
    cores_allocated := some (capField host.capacity_allocations (·.core))
    ram_allocated := some (capField host.capacity_allocations (·.ram))
    disk_allocated := some (capField host.capacity_allocations (·.disk)) }

/-- `load_switch` (site_v2.py lines 255-258); here the `getattr` defaults
are `None`, not `0`. -/
def load_switch (name : String) (sw : RawChild) : SwitchInfo :=
  { model := name
    capacity := sw.capacities.bind (·.unit)
    allocated := sw.capacity_allocations.bind (·.unit) }

/-- The `for c_name, child in site.children.items()` loop of `load_site`
(site_v2.py lines 235-239).  The returned boolean is true when an exception
was raised partway (here: on a `child.type` access); the maps carry whatever
was accumulated before that point. -/
def loadChildren (site_name : String) :
    List (String × RawChild) → List (String × HostInfo) → List (String × SwitchInfo) →
      List (String × HostInfo) × List (String × SwitchInfo) × Bool
  | [], hs, sws => (hs, sws, false)
  | (n, c) :: rest, hs, sws =>
    match c.type with
    | .raises => (hs, sws, true)
    | .ok .server => loadChildren site_name rest (dput n (load_host site_name n c) hs) sws
    | .ok .switch => loadChildren site_name rest hs (dput n (load_switch n c) sws)
    | .ok .other => loadChildren site_name rest hs sws

/-- `load_site` (site_v2.py lines 230-252).  Any exception inside the `try`
block is caught and the function returns `SiteV2(name=site.site, state="Error")`
together with the `hosts`/`switches` dicts as accumulated so far. -/
def load_site (s : RawSite) : SiteV2 × List (String × HostInfo) × List (String × SwitchInfo) :=
  match s.children with
  | .raises => ({ name := s.site, state := some "Error" }, [], [])
  | .ok cs =>
    let r := loadChildren s.site cs [] []
    if r.2.2 then
      ({ name := s.site, state := some "Error" }, r.1, r.2.1)
    else
      ({ name := s.site
         address := s.location.bind (·.postal)
         location := s.location.map (fun l => (l.lat, l.lon))
         ptp_capable := s.flags.bind (·.ptp)
         ipv4_management := s.flags.bind (·.ipv4_management) }, r.1, r.2.1)

/-- True exactly when the Python `load_site` takes its `except` branch. -/
def load_site_failed (s : RawSite) : Bool :=
  match s.children with
  | .raises => true
  | .ok cs => (loadChildren s.site cs [] []).2.2

/-! ## Filter and pagination engine (fabrictestbed/topology_query_api.py) -/

/-- A JSON-like Python value, used to write a structured filter mapping. -/
inductive PyVal where
  | str (s : String)
  | int (n : Int)
  | list (xs : List PyVal)
  | dict (entries : List (String × PyVal))

/-- The runtime value passed as the `filters` argument: `None`, a callable
predicate, or (what the spec calls a structured `FilterSpec`) a plain mapping.
The Python signature types `filters` as `Optional[Callable]`, but at runtime
any object can arrive here. -/
inductive PyFilter (α : Type) where
  | pynone
  | callable (p : α → Bool)
  | mapping (spec : List (String × PyVal))

/-- `_apply_filters` (topology_query_api.py lines 22-110):
`if filters is None: return list(data)` and otherwise
`[r for r in data if filters(r)]`.  A mapping is not callable, so the first
evaluation of `filters(r)` raises `TypeError`; with no records there is no
call and the comprehension is empty. -/
def apply_filters {α : Type} (data : List α) (filters : PyFilter α) :
    Except String (List α) :=
  match filters with
  | .pynone => .ok data
  | .callable p => .ok (data.filter p)
  | .mapping _ =>
    match data with
    | [] => .ok []
    | _ :: _ => .error "TypeError: dict object is not callable"

/-- `int(offset or 0)` for an `int`-typed offset: the identity. -/
def pyOrIntZero (n : Int) : Int :=
  if n = 0 then 0 else n

/-- `_paginate` (topology_query_api.py lines 113-117):
`start = max(0, int(offset or 0))`; `data[start:]` when `limit is None`, else
`data[start : start + max(0, int(limit))]`. -/
def paginate {α : Type} (data : List α) (limit : Option Int) (offset : Int) : List α :=
  let start : Nat := (max 0 (pyOrIntZero offset)).toNat
  match limit with
  | none => data.drop start
  | some l => (data.drop start).take (max 0 l).toNat

/-! ## Raw topology model for the indexer (fabrictestbed/util/resources_v2.py)

`ResourcesV2` walks a FIM `AdvertizedTopology` through the attribute branch of
each accessor (`topology.sites` / `topology.nodes` / `topology.links` as
dicts); `RawTopology` models exactly that shape, dict values flattened to the
lists the code iterates. -/

structure RawSiteNode where
  address : Option String := none
  location : Option (Int × Int) := none
  state : Option String := none
  ptp_capable : Option Bool := none
  deriving DecidableEq

structure RawNodeComponent where
  capacities : Option RawCaps := none
  allocations : Option RawCaps := none
  deriving DecidableEq

structure RawTopoNode where
  node_type : Option String := none
  class_kind : Option String := none
  name : Option String := none
  site : Option String := none
  cores_capacity : Option Int := none
  cores_allocated : Option Int := none
  ram_capacity : Option Int := none
  ram_allocated : Option Int := none
  disk_capacity : Option Int := none
  disk_allocated : Option Int := none
  components : Option (List (String × RawNodeComponent)) := none
  deriving DecidableEq

structure RawEndpoint where
  class_kind : Option String := none
  type_attr : Option String := none
  site : Option String := none
  node : Option String := none
  name : Option String := none
  port : Option String := none
  labels : Option String := none
  vlans : Option String := none
  switch : Option String := none
  deriving DecidableEq

structure RawLink where
  name : Option String := none
  layer : Option String := none
  labels : Option String := none
  bandwidth : Option Int := none
  endpoints : List RawEndpoint := []
  deriving DecidableEq

structure RawTopology where
  sites : List (String × RawSiteNode) := []
  nodes : List RawTopoNode := []
  links : List RawLink := []
  deriving DecidableEq

/-- `_index_sites` (resources_v2.py lines 99-126): every raw site is turned
into a `SiteV2` and stored; nothing is dropped and `load_site` is not called. -/
def index_sites (topo : RawTopology) : List (String × SiteV2) :=
  topo.sites.foldl (fun acc e =>
    dput e.1
      { name := e.1
        address := e.2.address
        location := e.2.location
        state := e.2.state
        ptp_capable := e.2.ptp_capable } acc) []

/-- `kind = getattr(n, "node_type", getattr(n, "class_kind", None))`;
`kind_s = str(kind).lower() if kind else ""`; membership in
`{"server", "node", "compute"}` (resources_v2.py lines 144-147). -/
def nodeKindOk (n : RawTopoNode) : Bool :=
  let kind : Option String :=
    match n.node_type with
    | some k => some k
    | none => n.class_kind
  let kind_s :=
    match kind with
    | none => ""
    | some k => strLower k
  kind_s = "server" || kind_s = "node" || kind_s = "compute"

/-- The components loop of `_index_hosts` (resources_v2.py lines 163-169);
both `getattr` chains default to `None` here. -/
def nodeComponents (n : RawTopoNode) : List (String × ComponentInfo) :=
  match n.components with
  | none => []
  | some comps =>
    comps.foldl (fun cm ce =>
      dput ce.1
        { model := ce.1
          capacity := ce.2.capacities.bind (·.unit)
          allocated := ce.2.allocations.bind (·.unit) } cm) []

/-- One iteration of the node loop of `_index_hosts`
(resources_v2.py lines 142-181). -/
def indexHostStep (sites : List (String × SiteV2))
    (buckets : List (String × List (String × HostInfo))) (n : RawTopoNode) :
    List (String × List (String × HostInfo)) :=
  if !nodeKindOk n then buckets
  else
    match n.name, n.site with
    | some host_name, some site_name =>
      -- `if not host_name or not site_name or site_name not in self._sites: continue`
      if host_name = "" ∨ site_name = "" then buckets
      else if (dget sites site_name).isNone then buckets
      else
        dupdate site_name
          (fun b =>
            dput host_name
              { name := host_name
                site := site_name
                cores_capacity := n.cores_capacity
                cores_allocated := n.cores_allocated
                ram_capacity := n.ram_capacity
                ram_allocated := n.ram_allocated
                disk_capacity := n.disk_capacity
                disk_allocated := n.disk_allocated
                components := nodeComponents n } b) buckets
    | _, _ => buckets

/-- `_index_hosts` (resources_v2.py lines 128-181): buckets are pre-created for
every indexed site, then every raw node is classified and inserted. -/
def index_hosts (topo : RawTopology) (sites : List (String × SiteV2)) :
    List (String × List (String × HostInfo)) :=
  let init := sites.map (fun e => (e.1, ([] : List (String × HostInfo))))
  topo.nodes.foldl (indexHostStep sites) init

/-- `cls = getattr(ep, "class_kind", getattr(ep, "type", ""))`
(resources_v2.py line 200). -/
def epClassKind (ep : RawEndpoint) : String :=
  match ep.class_kind with
  | some c => c
  | none => ep.type_attr.getD ""

/-- `str(cls).lower() in {"facilityport", "facility_port"}`. -/
def epIsFacilityPort (ep : RawEndpoint) : Bool :=
  strLower (epClassKind ep) = "facilityport" ∨ strLower (epClassKind ep) = "facility_port"

/-- One endpoint of the facility-port scan
(`_index_facility_ports`, resources_v2.py lines 197-215). -/
def indexFacilityPortStep (sites : List (String × SiteV2))
    (buckets : List (String × List (String × FacilityPortInfo))) (ep : RawEndpoint) :
    List (String × List (String × FacilityPortInfo)) :=
  if !epIsFacilityPort ep then buckets
  else
    match ep.site with
    | none => buckets
    | some site_name =>
      if (dget sites site_name).isNone then buckets
      else
        match pyOrStr ep.name ep.port with
        | none => buckets
        | some nm =>
          if nm = "" then buckets
          else
            dupdate site_name
              (fun b =>
                dput nm
                  { site := site_name
                    name := nm
                    labels := ep.labels
                    vlans := ep.vlans
                    port := ep.port
                    switch := ep.switch } b) buckets

/-- `_index_facility_ports` (resources_v2.py lines 183-215): scan every
endpoint of every link; the index key is the facility `name` within the
site bucket. -/
def index_facility_ports (topo : RawTopology) (sites : List (String × SiteV2)) :
    List (String × List (String × FacilityPortInfo)) :=
  let init := sites.map (fun e => (e.1, ([] : List (String × FacilityPortInfo))))
  topo.links.foldl (fun buckets l => l.endpoints.foldl (indexFacilityPortStep sites) buckets)
    init

/-- `_index_links` (resources_v2.py lines 217-250).  For each raw link the
endpoint list and the set of indexed sites seen are computed, and then the
code calls `LinkInfo(name=..., layer=..., labels=..., bandwidth=...,
endpoints=eps)` (line 242).  `LinkInfo` is a frozen dataclass whose
`allocated_bandwidth` and `sites` fields have no defaults, so this
constructor call raises `TypeError` for every link. -/
def index_links (topo : RawTopology) (sites : List (String × SiteV2)) :
    Except String (List (String × List LinkInfo)) :=
  let init := sites.map (fun e => (e.1, ([] : List LinkInfo)))
  topo.links.foldlM
    (fun _buckets l =>
      let _eps := l.endpoints.map (fun ep => LinkEndpoint.mk ep.site ep.node (pyOrStr ep.name ep.port))
      (.error "TypeError: LinkInfo missing 2 required positional arguments: allocated_bandwidth and sites" :
        Except String (List (String × List LinkInfo))))
    init

/-- The dedup key of `list_links` (resources_v2.py line 75):
`(l.name, tuple((e.site, e.node, e.port) for e in l.endpoints))` —
endpoint triples in their stored order, not sorted. -/
def linkKey (l : LinkInfo) : Option String × List (Option String × Option String × Option String) :=
  (l.name, l.endpoints.map (fun e => (e.site, e.node, e.port)))

/-- `list_links` (resources_v2.py lines 67-79): concatenate all site buckets,
then keep the first link for each key. -/
def list_links (links_by_site : List (String × List LinkInfo)) : List LinkInfo :=
  let out := (links_by_site.map (·.2)).flatten
  (out.foldl
    (fun acc l => if linkKey l ∈ acc.1 then acc else (linkKey l :: acc.1, acc.2 ++ [l]))
    (([], []) : List (Option String × List (Option String × Option String × Option String)) × List LinkInfo)).2

/-- The state of a fully constructed `ResourcesV2`. -/
structure Resources where
  sites : List (String × SiteV2)
  hosts_by_site : List (String × List (String × HostInfo))
  facility_ports_by_site : List (String × List (String × FacilityPortInfo))
  links_by_site : List (String × List LinkInfo)
  deriving DecidableEq

/-- `ResourcesV2.__post_init__` / `_index_everything` (resources_v2.py lines
39-97): the four passes in order, then each `SiteV2` gets its index views
bound back.  The error from the link pass propagates out of the constructor. -/
def buildResources (topo : RawTopology) : Except String Resources :=
  let sites := index_sites topo
  let hosts := index_hosts topo sites
  let fps := index_facility_ports topo sites
  match index_links topo sites with
  | .error e => .error e
  | .ok links =>
    let bound := sites.map (fun e =>
      (e.1,
        { e.2 with
          hosts_index := (dget hosts e.1).getD []
          facility_ports_index := (dget fps e.1).getD []
          links_index := [(e.1, (dget links e.1).getD [])] }))
    .ok { sites := bound, hosts_by_site := hosts,
          facility_ports_by_site := fps, links_by_site := links }

/-- `list_hosts` (resources_v2.py lines 55-59). -/
def list_hosts (r : Resources) : List HostInfo :=
  (r.hosts_by_site.map (fun e => e.2.map (·.2))).flatten

/-! ## Invariants stated about the indices -/

/-- Every facility-port bucket has pairwise-distinct facility names as keys and
each stored record carries its own key as `name` and its bucket as `site`. -/
def FPBucketsInv (buckets : List (String × List (String × FacilityPortInfo))) : Prop :=
  ∀ s b, dget buckets s = some b →
    (dkeys b).Nodup ∧ ∀ e ∈ b, e.2.name = e.1 ∧ e.2.site = s

/-- The host buckets mirror the site keys, and every stored host carries its
bucket as `site`, its key as `name`, and originates in a raw compute node of
the topology with that name and site. -/
def HostBucketsInv (topo : RawTopology) (sites : List (String × SiteV2))
    (buckets : List (String × List (String × HostInfo))) : Prop :=
  dkeys buckets = dkeys sites
  ∧ ∀ s b, dget buckets s = some b →
      ∀ e ∈ b, e.2.site = s ∧ e.2.name = e.1
        ∧ ∃ n ∈ topo.nodes, nodeKindOk n ∧ n.name = some e.1 ∧ n.site = some s

/-! ## Concrete inputs used by witnesses and counterexamples -/

/-- A host record as seen by the filter engine. -/
structure HostRec where
  name : String
  site : String
  deriving DecidableEq

/-- The structured spec `{or: [{site: {eq: "UCSD"}}, {site: {eq: "STAR"}}]}`. -/
def orFilterSpec : List (String × PyVal) :=
  [("or", .list
    [.dict [("site", .dict [("eq", .str "UCSD")])],
     .dict [("site", .dict [("eq", .str "STAR")])]])]

def mixedHosts : List HostRec := [⟨"h1", "UCSD"⟩, ⟨"h2", "RENC"⟩]

/-- Over-allocated host: 5 of 2 cores allocated, one component 3 of 1 allocated. -/
def hostOverAlloc : HostInfo :=
  { name := "w1", site := "X", cores_capacity := some 2, cores_allocated := some 5,
    components := [("GPU", { model := "GPU", capacity := some 1, allocated := some 3 })] }

def siteOverAlloc : SiteV2 :=
  { name := "X", hosts_index := [("w1", hostOverAlloc)] }

/-- A raw host exposing two components both named `"GPU-Tesla T4"`,
capacities 1 and 1. -/
def rawHostTwoGpus : RawChild :=
  { type := .ok .server
    components :=
      [("GPU-Tesla T4",
        { model := "GPU-Tesla T4", capacities := some { unit := some 1 },
          capacity_allocations := some { unit := some 0 } }),
       ("GPU-Tesla T4",
        { model := "GPU-Tesla T4", capacities := some { unit := some 1 },
          capacity_allocations := some { unit := some 0 } })] }

/-- A raw site whose `children` access raises. -/
def siteChildrenRaise : RawSite :=
  { site := "RENC", children := .raises }

/-- A raw site with one loadable server child followed by a child whose
`type` access raises partway through the loop. -/
def sitePartialFailure : RawSite :=
  { site := "UCSD"
    children := .ok
      [("ucsd-w1", { type := .ok .server, capacities := some { core := some 32 } }),
       ("broken", { type := .raises })] }

/-- A topology whose single raw site has no compute children at all. -/
def topoEmptySite : RawTopology :=
  { sites := [("EMPTY", {})], nodes := [], links := [] }

/-- One facility exposing two interfaces that carry the same facility name
`"FAC-1"` at the same site, over different underlying ports. -/
def topoDupFacility : RawTopology :=
  { sites := [("UCSD", {})]
    nodes := []
    links :=
      [{ name := some "lk1"
         endpoints :=
           [{ class_kind := some "FacilityPort", site := some "UCSD",
              name := some "FAC-1", port := some "port-A" },
            { class_kind := some "FacilityPort", site := some "UCSD",
              name := some "FAC-1", port := some "port-B" }] }] }

/-- The facility-port bucket the scan of `topoDupFacility` leaves at UCSD. -/
def fpBucketUCSD : List (String × FacilityPortInfo) :=
  [("FAC-1",
    { site := "UCSD", name := "FAC-1", port := some "port-B",
      switch := none, labels := none, vlans := none, allocated_vlans := none })]

/-- Two sites and one inter-site link whose endpoints resolve to RENC and STAR. -/
def topoDualSiteLink : RawTopology :=
  { sites := [("RENC", {}), ("STAR", {})]
    nodes := []
    links :=
      [{ name := some "lk-renc-star", layer := some "L2", bandwidth := some 100
         endpoints :=
           [{ site := some "RENC", node := some "n1", port := some "p1" },
            { site := some "STAR", node := some "n2", port := some "p2" }] }] }

/-- One raw link one of whose endpoints carries a site unknown to the index. -/
def topoUnresolvedEndpoint : RawTopology :=
  { sites := [("UCSD", {})]
    nodes := []
    links :=
      [{ name := some "lk-ghost"
         endpoints :=
           [{ site := some "UCSD", node := some "n1", port := some "p1" },
            { site := some "GHOST", node := some "n2", port := some "p2" }] }] }

/-- One good compute node, one with a missing name, one at an unknown site and
one of non-compute kind. -/
def topoHostsMixed : RawTopology :=
  { sites := [("UCSD", {})]
    nodes :=
      [{ node_type := some "Server", name := some "ucsd-w1", site := some "UCSD",
         cores_capacity := some 64 },
       { node_type := some "Server", site := some "UCSD" },
       { node_type := some "Server", name := some "x-w1", site := some "GHOST" },
       { node_type := some "Switch", name := some "sw1", site := some "UCSD" }]
    links := [] }

/-- The single host record the host pass extracts from `topoHostsMixed`. -/
def hostUcsdW1 : HostInfo :=
  { name := "ucsd-w1", site := "UCSD", cores_capacity := some 64,
    cores_allocated := none, ram_capacity := none, ram_allocated := none,
    disk_capacity := none, disk_allocated := none, components := [] }

/-- The `Resources` value `buildResources` yields on `topoHostsMixed`. -/
def resHostsMixed : Resources :=
  { sites :=
      [("UCSD",
        { name := "UCSD", hosts_index := [("ucsd-w1", hostUcsdW1)],
          facility_ports_index := [], links_index := [("UCSD", [])],
          switches_index := [] })]
    hosts_by_site := [("UCSD", [("ucsd-w1", hostUcsdW1)])]
    facility_ports_by_site := [("UCSD", [])]
    links_by_site := [("UCSD", [])] }

/-! ## Library lemmas about the dict model -/

@[simp] theorem dget_nil {V : Type} (k : String) : dget ([] : List (String × V)) k = none := rfl

@[simp] theorem dget_cons {V : Type} (k' k : String) (v : V) (rest : List (String × V)) :
    dget ((k', v) :: rest) k = if k' = k then some v else dget rest k := rfl

theorem dget_dput_self {V : Type} (k : String) (v : V) (d : List (String × V)) :
    dget (dput k v d) k = some v := by
  induction d with
  | nil => simp [dput]
  | cons e rest ih =>
    obtain ⟨a, b⟩ := e
    by_cases h : a = k
    · simp [dput, h]
    · simp [dput, h, ih]

theorem dget_dput_ne {V : Type} (k k' : String) (v : V) (d : List (String × V))
    (h : k ≠ k') : dget (dput k v d) k' = dget d k' := by
  induction d with
  | nil => simp [dput, h]
  | cons e rest ih =>
    obtain ⟨a, b⟩ := e
    by_cases he : a = k
    · subst he
      simp [dput, h, fun hh : a = k' => h (hh ▸ rfl)]
    · simp [dput, he, ih]

theorem mem_dkeys_dput {V : Type} (k k' : String) (v : V) (d : List (String × V)) :
    k' ∈ dkeys (dput k v d) ↔ k' = k ∨ k' ∈ dkeys d := by
  induction d with
  | nil => simp [dput, dkeys, eq_comm]
  | cons e rest ih =>
    obtain ⟨a, b⟩ := e
    by_cases he : a = k
    · subst he
      simp [dput, dkeys, eq_comm]
    · simp [dput, he, dkeys] at ih ⊢
      tauto

theorem dkeys_dupdate {V : Type} (k : String) (f : V → V) (d : List (String × V)) :
    dkeys (dupdate k f d) = dkeys d := by
  induction d with
  | nil => rfl
  | cons e rest ih =>
    obtain ⟨a, b⟩ := e
    by_cases he : a = k
    · simp [dupdate, he, dkeys]
    · simp [dupdate, he, dkeys] at ih ⊢
      exact ih

theorem dget_dupdate_self {V : Type} (k : String) (f : V → V) (d : List (String × V)) :
    dget (dupdate k f d) k = (dget d k).map f := by
  induction d with
  | nil => rfl
  | cons e rest ih =>
    obtain ⟨a, b⟩ := e
    by_cases he : a = k
    · simp [dupdate, he]
    · simp [dupdate, he, ih]

theorem dget_dupdate_ne {V : Type} (k k' : String) (f : V → V) (d : List (String × V))
    (h : k ≠ k') : dget (dupdate k f d) k' = dget d k' := by
  induction d with
  | nil => rfl
  | cons e rest ih =>
    obtain ⟨a, b⟩ := e
    by_cases he : a = k
    · subst he
      simp [dupdate, h]
    · simp [dupdate, he, ih]

theorem dget_isSome_iff_mem {V : Type} (d : List (String × V)) (k : String) :
    (dget d k).isSome ↔ k ∈ dkeys d := by
  induction d with
  | nil => simp [dkeys]
  | cons e rest ih =>
    obtain ⟨a, b⟩ := e
    by_cases he : a = k
    · simp [he, dkeys]
    · simp [he, dkeys, ih, Ne.symm he]

theorem dget_map_val {V W : Type} (g : V → W) (d : List (String × V)) (k : String) :
    dget (d.map (fun e => (e.1, g e.2))) k = (dget d k).map g := by
  induction d with
  | nil => rfl
  | cons e rest ih =>
    obtain ⟨a, b⟩ := e
    by_cases he : a = k
    · simp [he]
    · simp [he, ih]

theorem dget_some_mem {V : Type} (d : List (String × V)) (k : String) (v : V)
    (h : dget d k = some v) : (k, v) ∈ d := by
  induction d with
  | nil => simp at h
  | cons e rest ih =>
    obtain ⟨a, b⟩ := e
    by_cases he : a = k
    · subst he
      simp at h
      simp [h]
    · simp [he] at h
      simp [ih h]

/-- Generic preservation of a predicate along `List.foldl`, with membership of the
element available to the step argument. -/
theorem foldl_preserves {α β : Type} (P : β → Prop) (step : β → α → β) :
    ∀ (l : List α) (init : β), (∀ b a, a ∈ l → P b → P (step b a)) → P init →
      P (l.foldl step init)
  | [], init, _, hinit => hinit
  | x :: xs, init, hstep, hinit => by
    simp only [List.foldl_cons]
    exact foldl_preserves P step xs (step init x)
      (fun b a ha hb => hstep b a (List.mem_cons_of_mem _ ha) hb)
      (hstep init x (List.mem_cons_self _ _) hinit)

/-! ## Further helper lemmas -/

theorem pyOrIntZero_eq (n : Int) : pyOrIntZero n = n := by
  unfold pyOrIntZero
  split <;> omega

theorem availOf_nonneg (cap alloc : Option Int) : 0 ≤ availOf cap alloc := by
  unfold availOf
  split
  · exact le_max_left _ _
  · exact le_refl 0

theorem mem_dput {V : Type} (k : String) (v : V) :
    ∀ (d : List (String × V)) (e : String × V), e ∈ dput k v d → e = (k, v) ∨ e ∈ d
  | [], e, he => Or.inl (by simpa [dput] using he)
  | (a, b) :: rest, e, he => by
    by_cases ha : a = k
    · simp [dput, ha] at he
      rcases he with he | he
      · exact Or.inl (by simp [he])
      · exact Or.inr (List.mem_cons_of_mem _ he)
    · simp [dput, ha] at he
      rcases he with he | he
      · exact Or.inr (by simp [he])
      · rcases mem_dput k v rest e he with h | h
        · exact Or.inl h
        · exact Or.inr (List.mem_cons_of_mem _ h)

theorem nodup_dkeys_dput {V : Type} (k : String) (v : V) :
    ∀ (d : List (String × V)), (dkeys d).Nodup → (dkeys (dput k v d)).Nodup
  | [], _ => by simp [dput, dkeys]
  | (a, b) :: rest, h => by
    have h1 : a ∉ dkeys rest := (List.nodup_cons.mp h).1
    have h2 : (dkeys rest).Nodup := (List.nodup_cons.mp h).2
    by_cases ha : a = k
    · subst ha
      simpa [dput, dkeys] using h
    · have : (dkeys ((a, b) :: dput k v rest)).Nodup := by
        rw [show dkeys ((a, b) :: dput k v rest) = a :: dkeys (dput k v rest) from rfl]
        rw [List.nodup_cons]
        refine ⟨?_, nodup_dkeys_dput k v rest h2⟩
        intro hmem
        rcases (mem_dkeys_dput k a v rest).1 hmem with h' | h'
        · exact ha h'
        · exact h1 h'
      simpa [dput, ha] using this

theorem dget_map_const {V W : Type} (c : W) :
    ∀ (d : List (String × V)) (k : String),
      dget (d.map (fun e => (e.1, c))) k = (dget d k).map (fun _ => c)
  | [], _ => rfl
  | (a, b) :: rest, k => by
    by_cases ha : a = k <;> simp [ha, dget_map_const c rest k]

theorem dget_map_pair_isSome {V W : Type} (G : String × V → W) :
    ∀ (d : List (String × V)) (k : String),
      (dget (d.map (fun e => (e.1, G e))) k).isSome = (dget d k).isSome
  | [], _ => rfl
  | (a, b) :: rest, k => by
    by_cases ha : a = k <;> simp [ha, dget_map_pair_isSome G rest k]

theorem dget_eq_of_mem_nodup {V : Type} :
    ∀ (d : List (String × V)) (k : String) (v : V),
      (k, v) ∈ d → (dkeys d).Nodup → dget d k = some v
  | [], k, v, hm, _ => by simp at hm
  | (a, b) :: rest, k, v, hm, hn => by
    have hn' : (a :: dkeys rest).Nodup := hn
    rcases List.mem_cons.mp hm with he | he
    · cases he
      simp
    · by_cases ha : a = k
      · exfalso
        have hk : k ∈ dkeys rest := List.mem_map.mpr ⟨(k, v), he, rfl⟩
        exact (List.nodup_cons.mp hn').1 (ha ▸ hk)
      · simpa [ha] using dget_eq_of_mem_nodup rest k v he (List.nodup_cons.mp hn').2

theorem mem_dkeys_foldl_dput {V W : Type} (F : String × W → V) :
    ∀ (l : List (String × W)) (acc : List (String × V)) (n : String),
      n ∈ dkeys (l.foldl (fun acc e => dput e.1 (F e) acc) acc)
        ↔ n ∈ l.map (·.1) ∨ n ∈ dkeys acc
  | [], acc, n => by simp
  | e :: rest, acc, n => by
    simp only [List.foldl_cons, List.map_cons, List.mem_cons]
    rw [mem_dkeys_foldl_dput F rest, mem_dkeys_dput]
    tauto

theorem nodup_dkeys_foldl_dput {V W : Type} (F : String × W → V) :
    ∀ (l : List (String × W)) (acc : List (String × V)),
      (dkeys acc).Nodup → (dkeys (l.foldl (fun acc e => dput e.1 (F e) acc) acc)).Nodup
  | [], _, h => h
  | e :: rest, acc, h => by
    simp only [List.foldl_cons]
    exact nodup_dkeys_foldl_dput F rest _ (nodup_dkeys_dput e.1 (F e) acc h)

/-! ## Claim theorems -/

/-- C1 (counterexample): applying the structured spec
`{or: [{site: {eq: "UCSD"}}, {site: {eq: "STAR"}}]}` to a concrete mixed-site
host list does not return the UCSD hosts — the filter engine treats `filters`
as a callable, and a mapping is not callable, so the call raises `TypeError`. -/
theorem or_filter_spec_mapping_raises :
    apply_filters mixedHosts (.mapping orFilterSpec)
      = .error "TypeError: dict object is not callable"
    ∧ apply_filters mixedHosts (.mapping orFilterSpec) ≠ .ok [⟨"h1", "UCSD"⟩] :=
  ⟨rfl, by decide⟩

/-- C1 (amended): the filter engine accepts only an opaque predicate callable
evaluated as-is (a structured mapping raises `TypeError` on any non-empty
record list); for every host list, applying the equivalent callable predicate
returns exactly the hosts whose site is UCSD or STAR. -/
theorem apply_filters_callable_or_sites (hosts : List HostRec) :
    ∃ out,
      apply_filters hosts (.callable fun r => r.site == "UCSD" || r.site == "STAR") = .ok out
      ∧ ∀ r, r ∈ out ↔ r ∈ hosts ∧ (r.site = "UCSD" ∨ r.site = "STAR") := by
  refine ⟨_, rfl, fun r => ?_⟩
  simp [List.mem_filter]

/-- C8: `_paginate` clamps the offset to `>= 0`; `limit=None` returns from the
offset to the end; a negative limit yields zero records; the boundary
identities and the length formula `min(k, max(0, len - o))` hold for
non-negative `k`, `o`. -/
theorem paginate_boundary {α : Type} (r : List α) (l : Option Int) (o k : Int) :
    paginate r l o = paginate r l (max 0 o)
    ∧ paginate r none o = r.drop (max 0 o).toNat
    ∧ (k < 0 → paginate r (some k) o = [])
    ∧ paginate r (some 0) 0 = []
    ∧ paginate r none (r.length : Int) = []
    ∧ (0 ≤ k → 0 ≤ o →
        ((paginate r (some k) o).length : Int) = min k (max 0 ((r.length : Int) - o))) := by
  have hmax : max 0 (max 0 o) = max 0 o := max_eq_right (le_max_left _ _)
  refine ⟨?_, ?_, ?_, ?_, ?_, ?_⟩
  · unfold paginate
    rw [pyOrIntZero_eq, pyOrIntZero_eq, hmax]
  · unfold paginate
    rw [pyOrIntZero_eq]
  · intro hk
    unfold paginate
    have : (max 0 k).toNat = 0 := by omega
    simp [this]
  · rfl
  · unfold paginate
    rw [pyOrIntZero_eq]
    have : (max 0 (r.length : Int)).toNat = r.length := by omega
    rw [this]
    simp
  · intro hk ho
    have hlen : (paginate r (some k) o).length
        = min (max 0 k).toNat (r.length - (max 0 (pyOrIntZero o)).toNat) := by
      simp [paginate, List.length_take, List.length_drop]
    rw [hlen, pyOrIntZero_eq]
    omega

/-- C8 (witness): the boundary behaviour at a concrete five-record list:
a negative limit yields no records, and limit 2 at offset 4 yields
`min(2, max(0, 5-4)) = 1` record. -/
theorem paginate_boundary_witness :
    paginate ([10, 20, 30, 40, 50] : List Int) (some (-1)) 0 = []
    ∧ ((paginate ([10, 20, 30, 40, 50] : List Int) (some 2) 4).length : Int)
        = min 2 (max 0 (((5 : Nat) : Int) - 4)) := by
  refine ⟨(paginate_boundary ([10, 20, 30, 40, 50] : List Int) none 0 (-1)).2.2.1 (by decide), ?_⟩
  exact (paginate_boundary ([10, 20, 30, 40, 50] : List Int) none 4 2).2.2.2.2.2
    (by decide) (by decide)

/-- C7: every derived `available` equals `max(0, capacity - allocated)` for its
own capacity/allocated pair and is never negative — on host serialization,
on the site summary, and on aggregated component records. -/
theorem availability_clamping :
    (∀ (h : HostInfo) (c a : Int),
        (h.to_dict.cores_capacity = some c → h.to_dict.cores_allocated = some a →
          h.to_dict.cores_available = max 0 (c - a))
        ∧ (h.to_dict.ram_capacity = some c → h.to_dict.ram_allocated = some a →
            h.to_dict.ram_available = max 0 (c - a))
        ∧ (h.to_dict.disk_capacity = some c → h.to_dict.disk_allocated = some a →
            h.to_dict.disk_available = max 0 (c - a))
        ∧ 0 ≤ h.to_dict.cores_available ∧ 0 ≤ h.to_dict.ram_available
        ∧ 0 ≤ h.to_dict.disk_available)
    ∧ (∀ s : SiteV2,
        s.to_summary.cores_available
            = max 0 (s.to_summary.cores_capacity - s.to_summary.cores_allocated)
        ∧ s.to_summary.ram_available
            = max 0 (s.to_summary.ram_capacity - s.to_summary.ram_allocated)
        ∧ s.to_summary.disk_available
            = max 0 (s.to_summary.disk_capacity - s.to_summary.disk_allocated)
        ∧ 0 ≤ s.to_summary.cores_available ∧ 0 ≤ s.to_summary.ram_available
        ∧ 0 ≤ s.to_summary.disk_available)
    ∧ (∀ (s : SiteV2) (m : String) (e : CompAgg),
        dget s.aggregate_components m = some e →
          e.available = max 0 (e.capacity - e.allocated) ∧ 0 ≤ e.available) := by
  refine ⟨fun h c a => ⟨?_, ?_, ?_, availOf_nonneg _ _, availOf_nonneg _ _, availOf_nonneg _ _⟩,
    fun s => ⟨rfl, rfl, rfl, le_max_left _ _, le_max_left _ _, le_max_left _ _⟩,
    fun s m e he => ?_⟩
  · intro h1 h2
    simp only [HostInfo.to_dict] at h1 h2 ⊢
    rw [h1, h2]
    rfl
  · intro h1 h2
    simp only [HostInfo.to_dict] at h1 h2 ⊢
    rw [h1, h2]
    rfl
  · intro h1 h2
    simp only [HostInfo.to_dict] at h1 h2 ⊢
    rw [h1, h2]
    rfl
  · obtain ⟨x, _, hfx⟩ := List.mem_map.mp (dget_some_mem _ _ _ he)
    have he2 : e = ⟨x.2.1, x.2.2, max 0 (x.2.1 - x.2.2)⟩ := (Prod.mk.injEq _ _ _ _ ▸ hfx).2.symm
    subst he2
    exact ⟨rfl, le_max_left _ _⟩

/-- C7 (witness): an over-allocated host (5 of 2 cores) serializes with
`cores_available = max(0, 2-5) = 0`; its site summary and its aggregated GPU
component record (3 of 1 allocated) clamp the same way. -/
theorem availability_clamping_witness :
    hostOverAlloc.to_dict.cores_available = max 0 ((2 : Int) - 5)
    ∧ siteOverAlloc.to_summary.cores_available
        = max 0 (siteOverAlloc.to_summary.cores_capacity - siteOverAlloc.to_summary.cores_allocated)
    ∧ (⟨1, 3, 0⟩ : CompAgg).available
        = max 0 ((⟨1, 3, 0⟩ : CompAgg).capacity - (⟨1, 3, 0⟩ : CompAgg).allocated) :=
  ⟨(availability_clamping.1 hostOverAlloc 2 5).1 rfl rfl,
   (availability_clamping.2.1 siteOverAlloc).1,
   (availability_clamping.2.2 siteOverAlloc "GPU" ⟨1, 3, 0⟩ (by decide)).1⟩

/-- C5 (counterexample): a raw site whose second child raises on its `type`
access yields `state="Error"` but a NON-empty host map — the first, already
loaded host is kept, refuting "together with empty host and switch maps". -/
theorem load_site_partial_maps_not_empty :
    (load_site sitePartialFailure).1.state = some "Error"
    ∧ (load_site sitePartialFailure).2.1 ≠ []
    ∧ dkeys (load_site sitePartialFailure).2.1 = ["ucsd-w1"] := by
  refine ⟨by decide, by decide, by decide⟩

/-- C5 (amended): any exception while loading a site is caught: the loader
returns `SiteV2{state="Error"}` (and only then) together with the host and
switch maps accumulated before the failure, which are empty whenever the
exception is raised on access to the `children` structure itself; nothing
propagates (the embedding is a total function). -/
theorem load_site_error_policy (s : RawSite) :
    ((load_site s).1.state = some "Error" ↔ load_site_failed s = true)
    ∧ (s.children = Fallible.raises →
        (load_site s).2.1 = [] ∧ (load_site s).2.2 = []) := by
  constructor
  · cases hc : s.children with
    | raises => simp [load_site, load_site_failed, hc]
    | ok cs =>
      simp only [load_site, load_site_failed, hc]
      by_cases hr : (loadChildren s.site cs [] []).2.2
      · simp [hr]
      · simp [hr]
  · intro hc
    simp [load_site, hc]

/-- C5 (witness): a raw site whose `children` access raises yields
`state="Error"` with an empty host map. -/
theorem load_site_error_policy_witness :
    (load_site siteChildrenRaise).1.state = some "Error"
    ∧ (load_site siteChildrenRaise).2.1 = [] :=
  ⟨(load_site_error_policy siteChildrenRaise).1.mpr (by decide),
   ((load_site_error_policy siteChildrenRaise).2 rfl).1⟩

/-- C4 (code evaluated at the failing input): on a topology with one link whose
two endpoints resolve to two different sites, index construction raises
`TypeError` — the `LinkInfo(...)` call in `_index_links` omits the required
`allocated_bandwidth` and `sites` fields — so no link is ever indexed and
`list_links` is unreachable. -/
theorem build_resources_raises_on_dual_site_link :
    buildResources topoDualSiteLink
      = .error "TypeError: LinkInfo missing 2 required positional arguments: allocated_bandwidth and sites" :=
  rfl

/-- C9 (code evaluated at the failing input): on a topology whose link has an
endpoint with an unknown site, index construction raises the same `TypeError`
from the `LinkInfo(...)` call before any endpoint could be retained. -/
theorem build_resources_raises_on_unresolved_endpoint :
    buildResources topoUnresolvedEndpoint
      = .error "TypeError: LinkInfo missing 2 required positional arguments: allocated_bandwidth and sites" :=
  rfl

/-- C2 (counterexample): index construction over a topology whose only raw
site has no hosts succeeds and keeps that site in the sites index with an
empty host bucket — sites with empty host maps are not dropped. -/
theorem empty_host_map_site_retained :
    (buildResources topoEmptySite).map (fun r => (dget r.sites "EMPTY").isSome) = .ok true
    ∧ (buildResources topoEmptySite).map (fun r => dget r.hosts_by_site "EMPTY")
        = .ok (some []) :=
  ⟨rfl, rfl⟩

/-- C2 (amended): `_index_sites` registers every raw site in the sites index,
regardless of its children; it never invokes the site loader and never drops a
site for having an empty host map. -/
theorem index_sites_registers_every_raw_site (topo : RawTopology) (n : String) :
    n ∈ dkeys (index_sites topo) ↔ n ∈ topo.sites.map (·.1) := by
  have h := mem_dkeys_foldl_dput (V := SiteV2) (W := RawSiteNode)
    (fun e =>
      { name := e.1, address := e.2.address, location := e.2.location,
        state := e.2.state, ptp_capable := e.2.ptp_capable }) topo.sites [] n
  simpa [index_sites, dkeys] using h

/-! ## Component-merge lemmas for `load_host` (claim C6) -/

theorem dget_insertComp_ne (acc : List (String × ComponentInfo)) (e : String × RawComponent)
    (m : String) (h : e.1 ≠ m) : dget (insertComp acc e) m = dget acc m := by
  unfold insertComp
  rcases hge : dget acc e.1 with _ | ex
  · simp only [hge]
    exact dget_dput_ne _ _ _ _ h
  · simp only [hge]
    exact dget_dput_ne _ _ _ _ h

theorem dget_foldl_insertComp_some (m mod : String) :
    ∀ (comps : List (String × RawComponent)) (acc : List (String × ComponentInfo)) (c a : Int),
      dget acc m = some { model := mod, capacity := some c, allocated := some a } →
      dget (comps.foldl insertComp acc) m
        = some { model := mod,
                 capacity := some (c + ((comps.filter (fun e => e.1 = m)).map
                   (fun e => compCap e.2)).sum),
                 allocated := some (a + ((comps.filter (fun e => e.1 = m)).map
                   (fun e => compAlloc e.2)).sum) }
  | [], acc, c, a, hacc => by simpa using hacc
  | e :: rest, acc, c, a, hacc => by
    rw [List.foldl_cons]
    by_cases hm : e.1 = m
    · have hstep : dget (insertComp acc e) m
          = some { model := mod, capacity := some (c + compCap e.2),
                   allocated := some (a + compAlloc e.2) } := by
        unfold insertComp
        rw [hm, hacc]
        simpa using dget_dput_self m _ acc
      rw [dget_foldl_insertComp_some m mod rest _ _ _ hstep]
      simp [List.filter_cons, hm, add_assoc]
    · have hstep : dget (insertComp acc e) m
          = some { model := mod, capacity := some c, allocated := some a } := by
        rw [dget_insertComp_ne _ _ _ hm]
        exact hacc
      rw [dget_foldl_insertComp_some m mod rest _ _ _ hstep]
      simp [List.filter_cons, hm]

theorem dget_foldl_insertComp_none (m : String) :
    ∀ (comps : List (String × RawComponent)) (acc : List (String × ComponentInfo)),
      dget acc m = none → m ∈ comps.map (·.1) →
      ∃ ci, dget (comps.foldl insertComp acc) m = some ci
        ∧ ci.capacity = some (((comps.filter (fun e => e.1 = m)).map
            (fun e => compCap e.2)).sum)
        ∧ ci.allocated = some (((comps.filter (fun e => e.1 = m)).map
            (fun e => compAlloc e.2)).sum)
  | [], _, _, hm => by simp at hm
  | e :: rest, acc, hacc, hm => by
    rw [List.foldl_cons]
    by_cases hme : e.1 = m
    · have hstep : dget (insertComp acc e) m
          = some { model := e.2.model, capacity := some (compCap e.2),
                   allocated := some (compAlloc e.2) } := by
        unfold insertComp
        rw [hme, hacc]
        exact dget_dput_self m _ acc
      refine ⟨_, dget_foldl_insertComp_some m e.2.model rest _ _ _ hstep, ?_, ?_⟩
      · simp [List.filter_cons, hme]
      · simp [List.filter_cons, hme]
    · have hstep : dget (insertComp acc e) m = none := by
        rw [dget_insertComp_ne _ _ _ hme]
        exact hacc
      have hm' : m ∈ rest.map (·.1) := by
        have hm0 : m ∈ e.1 :: rest.map (·.1) := by
          rw [List.map_cons] at hm
          exact hm
        rcases List.mem_cons.mp hm0 with h | h
        · exact absurd h.symm hme
        · exact h
      obtain ⟨ci, h1, h2, h3⟩ := dget_foldl_insertComp_none m rest _ hstep hm'
      refine ⟨ci, h1, ?_, ?_⟩
      · rw [h2]
        simp [List.filter_cons, hme]
      · rw [h3]
        simp [List.filter_cons, hme]

/-- C6: `load_host` merges same-named components by summing capacity and
allocated: for every raw host and every component name occurring under it, the
resulting components dict holds a single entry whose capacity/allocated are
the sums over all raw entries carrying that name. -/
theorem load_host_merges_same_named_components (site_name host_name : String)
    (host : RawChild) (m : String) (hm : m ∈ host.components.map (·.1)) :
    ∃ ci, dget (load_host site_name host_name host).components m = some ci
      ∧ ci.capacity = some (((host.components.filter (fun e => e.1 = m)).map
          (fun e => compCap e.2)).sum)
      ∧ ci.allocated = some (((host.components.filter (fun e => e.1 = m)).map
          (fun e => compAlloc e.2)).sum) :=
  dget_foldl_insertComp_none m host.components [] rfl hm

/-- C6 (witness): two raw components both named `"GPU-Tesla T4"` with
capacities 1 and 1 merge into one `ComponentInfo` with capacity 2. -/
theorem load_host_merges_witness :
    ∃ ci, dget (load_host "UCSD" "ucsd-w1" rawHostTwoGpus).components "GPU-Tesla T4" = some ci
      ∧ ci.capacity = some 2 := by
  obtain ⟨ci, h1, h2, _⟩ :=
    load_host_merges_same_named_components "UCSD" "ucsd-w1" rawHostTwoGpus "GPU-Tesla T4"
      (by decide)
  refine ⟨ci, h1, ?_⟩
  rw [h2]
  decide

/-! ## Facility-port bucket invariant (claim C3) -/

theorem fpInv_init (sites : List (String × SiteV2)) :
    FPBucketsInv (sites.map (fun e => (e.1, ([] : List (String × FacilityPortInfo))))) := by
  intro s b hb
  rw [dget_map_const] at hb
  obtain ⟨b0, _, hb0⟩ := Option.map_eq_some'.mp hb
  cases hb0
  refine ⟨by simp [dkeys], ?_⟩
  intro e he
  simp at he

theorem fpInv_insert (buckets : List (String × List (String × FacilityPortInfo)))
    (s nm : String) (fp : FacilityPortInfo) (hname : fp.name = nm) (hsite : fp.site = s)
    (h : FPBucketsInv buckets) :
    FPBucketsInv (dupdate s (fun b => dput nm fp b) buckets) := by
  intro s' b' hb'
  by_cases hs : s = s'
  · subst hs
    rw [dget_dupdate_self] at hb'
    obtain ⟨b0, hb0, hb0'⟩ := Option.map_eq_some'.mp hb'
    obtain ⟨hnd, hfields⟩ := h s b0 hb0
    rw [← hb0']
    refine ⟨nodup_dkeys_dput nm fp b0 hnd, ?_⟩
    intro e he
    rcases mem_dput nm fp b0 e he with he' | he'
    · rw [he']
      exact ⟨hname, hsite⟩
    · exact hfields e he'
  · rw [dget_dupdate_ne _ _ _ _ hs] at hb'
    exact h s' b' hb'

theorem fpInv_step (sites : List (String × SiteV2))
    (buckets : List (String × List (String × FacilityPortInfo))) (ep : RawEndpoint)
    (h : FPBucketsInv buckets) : FPBucketsInv (indexFacilityPortStep sites buckets ep) := by
  unfold indexFacilityPortStep
  split
  · exact h
  · split
    · exact h
    · split
      · exact h
      · split
        · exact h
        · split
          · exact h
          · exact fpInv_insert buckets _ _ _ rfl rfl h

/-- C3 (amended): within each site bucket the facility-port index is keyed by
the facility name alone — bucket keys are pairwise distinct, every record
carries its key as its name and its bucket as its site; hence two distinct
interfaces carrying the same facility name at the same site collapse to a
single entry (the later interface overwrites the earlier). -/
theorem facility_port_bucket_names_unique (topo : RawTopology) (s : String)
    (b : List (String × FacilityPortInfo))
    (hb : dget (index_facility_ports topo (index_sites topo)) s = some b) :
    (dkeys b).Nodup ∧ ∀ e ∈ b, e.2.name = e.1 ∧ e.2.site = s := by
  have hinv : FPBucketsInv (index_facility_ports topo (index_sites topo)) := by
    unfold index_facility_ports
    exact foldl_preserves FPBucketsInv _ topo.links _
      (fun bkts l _ hbk =>
        foldl_preserves FPBucketsInv _ l.endpoints bkts
          (fun b2 ep _ h2 => fpInv_step _ b2 ep h2) hbk)
      (fpInv_init _)
  exact hinv s b hb

/-- C3 (witness): the amended key property evaluated on the duplicate-name
topology — the UCSD bucket has pairwise-distinct facility-name keys. -/
theorem facility_port_bucket_names_unique_witness : (dkeys fpBucketUCSD).Nodup :=
  (facility_port_bucket_names_unique topoDupFacility "UCSD" fpBucketUCSD (by decide)).1

/-- C3 (counterexample): one facility exposing two distinct interfaces with
the same facility name `"FAC-1"` at the same site leaves exactly ONE entry in
the facility-port bucket — the later interface (port `"port-B"`) overwrote the
earlier — refuting that both are retained as separate entries. -/
theorem facility_port_duplicate_name_collapses :
    dget (index_facility_ports topoDupFacility (index_sites topoDupFacility)) "UCSD"
      = some fpBucketUCSD
    ∧ (dget (index_facility_ports topoDupFacility (index_sites topoDupFacility)) "UCSD").map
        List.length = some 1 :=
  ⟨by decide, by decide⟩

/-! ## Host bucket invariant (claim C10) -/

theorem dkeys_map_pair {V W : Type} (G : String × V → W) :
    ∀ d : List (String × V), dkeys (d.map (fun e => (e.1, G e))) = dkeys d
  | [] => rfl
  | e :: rest => by
    have ih := dkeys_map_pair G rest
    simp only [dkeys] at ih
    simp only [List.map_cons, dkeys, ih]

theorem hostInv_init (topo : RawTopology) (sites : List (String × SiteV2)) :
    HostBucketsInv topo sites (sites.map (fun e => (e.1, ([] : List (String × HostInfo))))) := by
  constructor
  · exact dkeys_map_pair _ sites
  · intro s b hb
    rw [dget_map_const] at hb
    obtain ⟨b0, _, hb0⟩ := Option.map_eq_some'.mp hb
    cases hb0
    intro e he
    simp at he

theorem hostInv_step (topo : RawTopology) (sites : List (String × SiteV2))
    (buckets : List (String × List (String × HostInfo))) (n : RawTopoNode)
    (hn : n ∈ topo.nodes) (h : HostBucketsInv topo sites buckets) :
    HostBucketsInv topo sites (indexHostStep sites buckets n) := by
  obtain ⟨hkeys, hbuck⟩ := h
  unfold indexHostStep
  split
  · exact ⟨hkeys, hbuck⟩
  · rename_i hkind
    have hk : nodeKindOk n = true := by
      revert hkind
      cases nodeKindOk n <;> simp
    split
    · rename_i host_name site_name hname hsite
      split
      · exact ⟨hkeys, hbuck⟩
      · split
        · exact ⟨hkeys, hbuck⟩
        · refine ⟨by rw [dkeys_dupdate]; exact hkeys, ?_⟩
          intro s b hb
          by_cases hs : site_name = s
          · subst hs
            rw [dget_dupdate_self] at hb
            obtain ⟨b0, hb0, hb0'⟩ := Option.map_eq_some'.mp hb
            cases hb0'
            intro e he
            rcases mem_dput _ _ b0 e he with he' | he'
            · rw [he']
              exact ⟨rfl, rfl, n, hn, hk, hname, hsite⟩
            · exact hbuck _ b0 hb0 e he'
          · rw [dget_dupdate_ne _ _ _ _ hs] at hb
            exact hbuck s b hb
    · exact ⟨hkeys, hbuck⟩

theorem hosts_buckets_inv (topo : RawTopology) :
    HostBucketsInv topo (index_sites topo) (index_hosts topo (index_sites topo)) := by
  unfold index_hosts
  exact foldl_preserves (HostBucketsInv topo (index_sites topo)) _ topo.nodes _
    (fun b n hn h => hostInv_step topo _ b n hn h) (hostInv_init topo _)

theorem nodup_dkeys_index_sites (topo : RawTopology) : (dkeys (index_sites topo)).Nodup := by
  unfold index_sites
  exact nodup_dkeys_foldl_dput _ topo.sites [] (by simp [dkeys])

theorem host_index_core (topo : RawTopology) :
    ∀ sb ∈ index_hosts topo (index_sites topo), ∀ p ∈ sb.2,
      (dget (index_sites topo) p.2.site).isSome
      ∧ dget (index_hosts topo (index_sites topo)) p.2.site = some sb.2
      ∧ (p.2.name, p.2) ∈ sb.2
      ∧ ∃ n ∈ topo.nodes, nodeKindOk n ∧ n.name = some p.2.name ∧ n.site = some p.2.site := by
  intro sb hsb p hp
  obtain ⟨hkeys, hbuck⟩ := hosts_buckets_inv topo
  have hnodup : (dkeys (index_hosts topo (index_sites topo))).Nodup := by
    rw [hkeys]
    exact nodup_dkeys_index_sites topo
  have hget : dget (index_hosts topo (index_sites topo)) sb.1 = some sb.2 :=
    dget_eq_of_mem_nodup _ sb.1 sb.2 (by simpa using hsb) hnodup
  obtain ⟨hsite, hname, horig⟩ := hbuck sb.1 sb.2 hget p hp
  refine ⟨?_, ?_, ?_, ?_⟩
  · rw [hsite, dget_isSome_iff_mem, ← hkeys]
    exact (dget_isSome_iff_mem _ _).mp (by rw [hget]; rfl)
  · rw [hsite]
    exact hget
  · rw [hname]
    simpa using hp
  · rw [hname, hsite]
    exact horig

/-- C10: for every successfully constructed index, every host returned by
`list_hosts` carries a site that is a key of the sites index and is stored in
exactly that site bucket under its own name; and every indexed host originates
in a raw compute-kind node carrying that name and site — raw nodes with a
missing name or site, or an unindexed site, contribute nothing and raise
nothing (the pass is total). -/
theorem host_index_site_consistency (topo : RawTopology) (r : Resources)
    (hr : buildResources topo = .ok r) :
    ∀ hi ∈ list_hosts r,
      (dget r.sites hi.site).isSome
      ∧ (∃ b, dget r.hosts_by_site hi.site = some b ∧ (hi.name, hi) ∈ b)
      ∧ ∃ n ∈ topo.nodes, nodeKindOk n ∧ n.name = some hi.name ∧ n.site = some hi.site := by
  simp only [buildResources] at hr
  cases hlinks : index_links topo (index_sites topo) with
  | error e =>
    rw [hlinks] at hr
    cases hr
  | ok links =>
    rw [hlinks] at hr
    injection hr with hr2
    have hsiteseq : ∀ k, (dget r.sites k).isSome = (dget (index_sites topo) k).isSome := by
      intro k
      rw [← hr2]
      exact dget_map_pair_isSome _ (index_sites topo) k
    have hhosts : r.hosts_by_site = index_hosts topo (index_sites topo) := by
      rw [← hr2]
    intro hi hmem
    unfold list_hosts at hmem
    rw [hhosts, List.mem_flatten] at hmem
    obtain ⟨l2, hl2, hil⟩ := hmem
    rw [List.mem_map] at hl2
    obtain ⟨sb, hsb, hleq⟩ := hl2
    cases hleq
    rw [List.mem_map] at hil
    obtain ⟨p, hp, hpe⟩ := hil
    cases hpe
    obtain ⟨h1, h2, h3, h4⟩ := host_index_core topo sb hsb p hp
    refine ⟨?_, ?_, h4⟩
    · rw [hsiteseq]
      exact h1
    · rw [hhosts]
      exact ⟨sb.2, h2, h3⟩

/-- C10 (witness): on the mixed topology, construction succeeds and the single
indexed host was placed at `"UCSD"`, a key of the sites index. -/
theorem host_index_site_consistency_witness :
    (dget resHostsMixed.sites "UCSD").isSome :=
  (host_index_site_consistency topoHostsMixed resHostsMixed rfl hostUcsdW1 (by decide)).1

end Fabric
